import Mathlib

set_option autoImplicit false

/-!
Shallow embedding of the joshinator-analyzer deal-scoring core.

Modules embedded (from src/backend/app):
  services/pricing_service.py   (price statistics, fuzzy filter, resolve-with-cache)
  services/cache_service.py     (SQLite pricing cache, keyed by discriminating fields)
  services/roi_calculator.py    (ROI analysis and recommendation)
  services/audio_service.py     (bounded audio queue, confidence scoring)
  api/websocket.py              (identity fusion, last-known-card continuity)

Python floats are modelled as rationals (the operations involved are field
operations); the one square root in the source (standard deviation) is carried
as its square, in fields named stdDevSq, since the square root leaves the
rationals.  Python dicts with fixed key sets are modelled as structures;
a missing / None / empty-string / False value (all falsy in Python) is
modelled by the empty string for string fields and false for boolean fields,
matching the truthiness tests the source performs.
-/

/-- Fused card identity, mirroring the card_info dict flowing through
api/websocket.py (and models/card.py CardIdentification). Empty string
encodes a missing field, as the source tests truthiness. -/
structure CardInfo where
  player_name : String := ""
  year : String := ""
  set_name : String := ""
  card_number : String := ""
  grade : String := ""
  grading_company : String := ""
  rookie : Bool := false
  audio_confidence : ℚ := 0
deriving DecidableEq

/-- Attributes extracted from an audio transcript by
AudioService._extract_attributes. The extractor only ever sets rookie to
True, so absence of the key is modelled by false. -/
structure AudioAttrs where
  grade : String := ""
  year : String := ""
  set_name : String := ""
  rookie : Bool := false
deriving DecidableEq

/-- Character-list prefix test (helper for the substring test below). -/
def starts_with_chars : List Char → List Char → Bool
  | [], _ => true
  | _ :: _, [] => false
  | a :: as, b :: bs => a == b && starts_with_chars as bs

/-- Character-list substring test (helper for Python's `needle in hay`). -/
def contains_chars (needle : List Char) : List Char → Bool
  | [] => needle.isEmpty
  | b :: bs => starts_with_chars needle (b :: bs) || contains_chars needle bs

/-- Python's `needle in hay` on strings. -/
def str_contains (hay needle : String) : Bool :=
  contains_chars needle.data hay.data

/-- Python's str.upper, character-wise (all strings it is applied to in the
source are ASCII, where str.upper is exactly per-character uppercasing). -/
def str_upper (s : String) : String :=
  String.mk (s.data.map Char.toUpper)

/-- Python's str.lower, character-wise (same ASCII remark as str_upper). -/
def str_lower (s : String) : String :=
  String.mk (s.data.map Char.toLower)

namespace PricingService

/-- The dict returned by PricingService._calculate_price_stats
(pricing_service.py lines 168-196).  The source's standard_deviation field
holds `variance ** 0.5`; we carry the variance itself as stdDevSq (the zero
branch stores 0.0, and the square root of 0 is 0, so std = 0 iff
stdDevSq = 0). -/
structure PriceStats where
  count : ℕ
  prices : List ℚ
  average : ℚ
  median : ℚ
  min_price : ℚ
  max_price : ℚ
  stdDevSq : ℚ
  sale_dates : List String
  sources : List String
  timeframe : String
  query_used : String
deriving DecidableEq

/-- Python's `sorted` on the price list (ascending, stable). -/
def sortPrices (prices : List ℚ) : List ℚ :=
  List.insertionSort (· ≤ ·) prices

/-- PricingService._calculate_price_stats: empty prices give the all-zero
"no data" snapshot; otherwise sort and aggregate (count, bottom-10 of the
sorted list — the source comments say "most recent 10" but it slices the
sorted list — mean, median at index n/2, min, max, population variance). -/
def calculate_price_stats (prices : List ℚ) (query : String) : PriceStats :=
  if prices = [] then
    { count := 0, prices := [], average := 0, median := 0,
      min_price := 0, max_price := 0, stdDevSq := 0,
      sale_dates := [], sources := ["eBay Sold"],
      timeframe := "Last 90 days", query_used := query }
  else
    let prices_sorted := sortPrices prices
    let n := prices_sorted.length
    let avg := prices_sorted.sum / (n : ℚ)
    { count := n,
      prices := prices_sorted.take 10,
      average := avg,
      median := prices_sorted.getD (n / 2) 0,
      min_price := prices_sorted.headD 0,
      max_price := prices_sorted.getLastD 0,
      stdDevSq := ((prices_sorted.map (fun p => (p - avg) ^ 2)).sum) / (n : ℚ),
      sale_dates := [], sources := ["eBay Sold"],
      timeframe := "Last 90 days", query_used := query }

end PricingService

namespace ROICalculator

open PricingService

/-- ROICalculator.grade_multipliers (roi_calculator.py lines 7-20),
in the source's insertion order (Python dicts preserve it and
_get_grade_multiplier iterates in that order). -/
def grade_multipliers : List (String × ℚ) :=
  [("PSA 10", 5/2), ("PSA 9", 9/5), ("PSA 8", 13/10), ("PSA 7", 1),
   ("PSA 6", 7/10), ("BGS 9.5", 11/5), ("BGS 9", 8/5), ("BGS 8.5", 6/5),
   ("BGS 8", 1), ("SGC 10", 2), ("SGC 9", 3/2), ("SGC 8", 11/10)]

/-- ROICalculator._get_grade_multiplier: first table key that is a substring
of the uppercased grade wins; unknown grades get 1.0. -/
def get_grade_multiplier (grade : String) : ℚ :=
  match grade_multipliers.find? (fun kv => str_contains (str_upper grade) (str_upper kv.1)) with
  | some kv => kv.2
  | none => 1

/-- Result of ROICalculator._calculate_fair_value.  The source returns
{min, max, estimated} with min = max 0 ((baseAvg − s) * multiplier) and
max = (baseAvg + s) * multiplier where s is the standard deviation whose
square is stdSq; the range endpoints are carried through baseAvg / stdSq /
multiplier because s is a square root. -/
structure FairValue where
  estimated : ℚ
  baseAvg : ℚ
  stdSq : ℚ
  multiplier : ℚ
deriving DecidableEq

/-- Sample mean (statistics.mean); only applied to nonempty lists, as in
the source. -/
def listMean (l : List ℚ) : ℚ := l.sum / (l.length : ℚ)

/-- Square of statistics.stdev (sample standard deviation, n − 1 in the
denominator); only applied to lists of length ≥ 2, as in the source. -/
def sampleVarianceOf (l : List ℚ) : ℚ :=
  let m := listMean l
  ((l.map (fun p => (p - m) ^ 2)).sum) / ((l.length : ℚ) - 1)

/-- ROICalculator._calculate_fair_value (roi_calculator.py lines 60-87):
with ≥ 3 comparables, base on the mean of the first 10 entries of the
snapshot's price list and the sample standard deviation of that list;
with fewer, base on the snapshot's average with a 20 percent spread; then
apply the grade multiplier. -/
def calculate_fair_value (pricing_data : PriceStats) (card_info : CardInfo) : FairValue :=
  let prices := pricing_data.prices
  if prices = [] then
    { estimated := 0, baseAvg := 0, stdSq := 0, multiplier := 1 }
  else
    let recent_avg :=
      if prices.length ≥ 3 then listMean (prices.take 10) else pricing_data.average
    let stdSq :=
      if prices.length ≥ 3 then
        (if prices.length > 1 then sampleVarianceOf prices else (recent_avg * (1/5)) ^ 2)
      else (recent_avg * (1/5)) ^ 2
    let multiplier := get_grade_multiplier card_info.grade
    { estimated := recent_avg * multiplier,
      baseAvg := recent_avg, stdSq := stdSq, multiplier := multiplier }

/-- ROICalculator._generate_recommendation (roi_calculator.py lines 97-122):
fixed thresholds 30 / 15 / 5 / −10 on the ROI percentage, then confidence
scaled by data quality min(1, count-of-price-list / 10). -/
def generate_recommendation (roi_potential : ℚ) (pricing_data : PriceStats) :
    String × ℚ :=
  let base : String × ℚ :=
    if roi_potential ≥ 30 then ("STRONG_BUY", 9/10)
    else if roi_potential ≥ 15 then ("BUY", 7/10)
    else if roi_potential ≥ 5 then ("WEAK_BUY", 1/2)
    else if roi_potential ≥ -10 then ("WATCH", 3/10)
    else ("PASS", 4/5)
  let data_quality := min 1 ((pricing_data.prices.length : ℚ) / 10)
  (base.1, base.2 * data_quality)

/-- ROICalculator._generate_key_factors (roi_calculator.py lines 124-162). -/
def generate_key_factors (card_info : CardInfo) (pricing_data : PriceStats)
    (roi_potential : ℚ) : List String :=
  let price_count := pricing_data.prices.length
  let dataFactor :=
    if price_count ≥ 10 then "Strong market data available"
    else if price_count ≥ 5 then "Moderate market data available"
    else "Limited market data - higher risk"
  let roiFactor :=
    if roi_potential > 25 then "Excellent profit potential"
    else if roi_potential > 10 then "Good profit potential"
    else if roi_potential > 0 then "Modest profit potential"
    else "Currently above market value"
  let gradeFactor :=
    if str_contains card_info.grade "PSA 10" || str_contains card_info.grade "BGS 9.5" then
      "Premium grade - strong demand"
    else if str_contains card_info.grade "PSA 9" || str_contains card_info.grade "BGS 9" then
      "High grade - good demand"
    else if card_info.grade ≠ "" then "Graded card - " ++ card_info.grade
    else "Ungraded - condition risk"
  [dataFactor, roiFactor, gradeFactor] ++
    (if card_info.rookie then ["Rookie card - higher collectibility"] else [])

/-- The analysis dict built by ROICalculator.calculate_roi_analysis. -/
structure ROIAnalysis where
  recommendation : String
  roi_potential : ℚ
  fair_value_range : FairValue
  confidence : ℚ
  suggested_max_bid : ℚ
  key_factors : List String
deriving DecidableEq

/-- The initial analysis dict (roi_calculator.py lines 24-31): recommendation
"UNKNOWN", everything else zero / empty. -/
def defaultAnalysis : ROIAnalysis :=
  { recommendation := "UNKNOWN", roi_potential := 0,
    fair_value_range := { estimated := 0, baseAvg := 0, stdSq := 0, multiplier := 1 },
    confidence := 0, suggested_max_bid := 0, key_factors := [] }

/-- ROICalculator.calculate_roi_analysis (roi_calculator.py lines 22-58):
return the default analysis when the snapshot's price list is empty or the
bid is non-positive; otherwise compute fair value, and when the estimate is
positive compute ROI, recommendation, suggested max bid and key factors. -/
def calculate_roi_analysis (card_info : CardInfo) (current_bid : ℚ)
    (pricing_data : PriceStats) : ROIAnalysis :=
  if pricing_data.prices = [] ∨ current_bid ≤ 0 then defaultAnalysis
  else
    let fair_value := calculate_fair_value pricing_data card_info
    if fair_value.estimated > 0 then
      let roi_potential := (fair_value.estimated - current_bid) / current_bid * 100
      let recommendation_data := generate_recommendation roi_potential pricing_data
      { recommendation := recommendation_data.1,
        roi_potential := roi_potential,
        fair_value_range := fair_value,
        confidence := recommendation_data.2,
        suggested_max_bid := fair_value.estimated * (4/5),
        key_factors := generate_key_factors card_info pricing_data roi_potential }
    else { defaultAnalysis with fair_value_range := fair_value }

end ROICalculator

namespace CacheService

open PricingService

/-- The discriminating fields SQLiteCacheService._make_key hashes
(cache_service.py lines 35-39).  The source MD5-hashes the sorted-key JSON
of these five fields; the key is modelled as the field tuple itself, of
which that hash is a function, so equal identities get equal keys. -/
structure CacheKey where
  player_name : String
  year : String
  set_name : String
  grade : String
  card_number : String
deriving DecidableEq

/-- SQLiteCacheService._make_key, with the identity of the MD5/JSON encoding
abstracted away (see CacheKey). -/
def make_key (card_info : CardInfo) : CacheKey :=
  { player_name := card_info.player_name, year := card_info.year,
    set_name := card_info.set_name, grade := card_info.grade,
    card_number := card_info.card_number }

/-- One row of the pricing_cache table: primary-key cache_key, stored
snapshot, and created_at timestamp (seconds, as a rational). -/
structure CacheEntry where
  key : CacheKey
  data : PriceStats
  created_at : ℚ
deriving DecidableEq

/-- The pricing_cache table.  INSERT OR REPLACE on the primary key keeps at
most one row per key; cache_set below maintains that by filtering the key
out before prepending. -/
abbrev Cache := List CacheEntry

/-- SQLiteCacheService.get (cache_service.py lines 41-54): look the key up;
a row older than the TTL reads as None (expired). -/
def cache_get (cache : Cache) (card_info : CardInfo) (now ttl : ℚ) :
    Option PriceStats :=
  match cache.find? (fun e => e.key = make_key card_info) with
  | none => none
  | some e => if now - e.created_at > ttl then none else some e.data

/-- SQLiteCacheService.set (cache_service.py lines 56-65): INSERT OR REPLACE
the row for this key with created_at = now. -/
def cache_set (cache : Cache) (card_info : CardInfo) (data : PriceStats)
    (now : ℚ) : Cache :=
  { key := make_key card_info, data := data, created_at := now } ::
    (cache : List CacheEntry).filter (fun e => ¬ (e.key = make_key card_info))

end CacheService

namespace PricingService

open CacheService

/-- PricingService._build_search_query (pricing_service.py lines 97-110):
plain concatenation of the truthy discriminating fields. -/
def build_search_query (card_info : CardInfo) : String :=
  String.intercalate " "
    ((if card_info.player_name ≠ "" then [card_info.player_name] else []) ++
     (if card_info.year ≠ "" then [card_info.year] else []) ++
     (if card_info.set_name ≠ "" then [card_info.set_name] else []) ++
     (if card_info.grade ≠ "" then [card_info.grade] else []) ++
     (if card_info.card_number ≠ "" then ["#" ++ card_info.card_number] else []))

/-- PricingService._fuzzy_filter_prices (pricing_service.py lines 152-162):
keep prices whose title scores at least the threshold against the query
under the similarity function sim (fuzz.token_sort_ratio in the source,
passed in here as the external collaborator it is); if nothing survives,
return the unfiltered list (safety valve). -/
def fuzzy_filter_prices (sim : String → String → ℚ) (threshold : ℚ)
    (query : String) (prices : List ℚ) (titles : List String) : List ℚ :=
  let kept := ((prices.zip titles).filter
    (fun pt => sim (str_lower query) (str_lower pt.2) ≥ threshold)).map Prod.fst
  if kept = [] then prices else kept

/-- The try-block of PricingService.get_card_prices (pricing_service.py
lines 40-61): primary search, zero-result broadened retry (dropping
card_number and grade), fuzzy filter, with any exception from a search
(modelled by the search collaborator returning none) collapsing to
([], []).  Returns the kept prices, the query recorded for the stats
(the broadened query only once the retry has returned), and how many
search calls were issued. -/
def search_phase (search : String → Option (List ℚ × List String))
    (sim : String → String → ℚ) (threshold : ℚ)
    (query : String) (card_info : CardInfo) : List ℚ × String × ℕ :=
  match search query with
  | none => ([], query, 1)
  | some (prices, titles) =>
    if prices = [] then
      let broad_query := build_search_query
        { card_info with card_number := "", grade := "" }
      match search broad_query with
      | none => ([], query, 2)
      | some (prices2, titles2) =>
        (if titles2 ≠ [] then
           fuzzy_filter_prices sim threshold broad_query prices2 titles2
         else prices2, broad_query, 2)
    else
      (if titles ≠ [] then fuzzy_filter_prices sim threshold query prices titles
       else prices, query, 1)

/-- PricingService.get_card_prices (pricing_service.py lines 28-65):
cache hit returns the cached snapshot unchanged (every stored snapshot dict
is a non-empty dict, hence truthy); on a miss run the search phase with the
externally built query (Claude-assisted or fallback — passed in as the pure
string it produces), compute the statistics and write them to the cache.
The third component counts the search calls issued by this invocation. -/
def get_card_prices (search : String → Option (List ℚ × List String))
    (sim : String → String → ℚ) (threshold : ℚ) (query : String)
    (cache : Cache) (card_info : CardInfo) (now ttl : ℚ) :
    PriceStats × Cache × ℕ :=
  match cache_get cache card_info now ttl with
  | some cached => (cached, cache, 0)
  | none =>
    let phase := search_phase search sim threshold query card_info
    let result := calculate_price_stats phase.1 phase.2.1
    (result, cache_set cache card_info result now, phase.2.2)

end PricingService

namespace Websocket

/-- The _fuse_identities per-field rule for string-valued fields
(websocket.py lines 48-54): missing text value is filled from audio;
both present lets audio win only above weight 0.5. -/
def fuse_field_str (audio_weight : ℚ) (o a : String) : String :=
  if o = "" ∧ a ≠ "" then a
  else if o ≠ "" ∧ a ≠ "" ∧ audio_weight > 1/2 then a
  else o

/-- The _fuse_identities per-field rule for the boolean rookie field,
with Python falsiness of False / None. -/
def fuse_field_bool (audio_weight : ℚ) (o a : Bool) : Bool :=
  if o = false ∧ a = true then a
  else if o = true ∧ a = true ∧ audio_weight > 1/2 then a
  else o

/-- _fuse_identities (websocket.py lines 31-57): with zero total confidence
return the text identity unchanged; otherwise fuse grade, year, set_name and
rookie field-wise under audio_weight = audioConf / (ocrConf + audioConf),
and record the audio confidence on the result. -/
def fuse_identities (ocr_card_info : CardInfo) (audio_attrs : AudioAttrs)
    (ocr_confidence audio_confidence : ℚ) : CardInfo :=
  if ocr_confidence + audio_confidence ≤ 0 then ocr_card_info
  else
    let audio_weight := audio_confidence / (ocr_confidence + audio_confidence)
    { ocr_card_info with
      grade := fuse_field_str audio_weight ocr_card_info.grade audio_attrs.grade,
      year := fuse_field_str audio_weight ocr_card_info.year audio_attrs.year,
      set_name := fuse_field_str audio_weight ocr_card_info.set_name audio_attrs.set_name,
      rookie := fuse_field_bool audio_weight ocr_card_info.rookie audio_attrs.rookie,
      audio_confidence := audio_confidence }

/-- LAST_KNOWN_CARD_TTL_SECONDS (websocket.py line 28). -/
def LAST_KNOWN_CARD_TTL_SECONDS : ℚ := 30

/-- The last-known-card slot of _session_state: the stored identity and its
timestamp, or none.  The source stores them in two dict entries that are
always written together. -/
abbrev ContinuityState := Option (CardInfo × ℚ)

/-- The last-known-card TTL block of process_frame (websocket.py lines
155-164): a named identity is stored with timestamp now and kept; an
unnamed one is replaced by the stored identity only while that entry is
younger than the TTL.  Returns the effective identity and the new slot. -/
def continuity_update (state : ContinuityState) (card_info : CardInfo)
    (now : ℚ) : CardInfo × ContinuityState :=
  if card_info.player_name ≠ "" then (card_info, some (card_info, now))
  else
    match state with
    | some (last, last_ts) =>
      if now - last_ts < LAST_KNOWN_CARD_TTL_SECONDS then (last, state)
      else (card_info, state)
    | none => (card_info, state)

end Websocket

namespace AudioService

/-- The bounded queue capacity: queue.Queue(maxsize=4)
(audio_service.py line 31). -/
def QUEUE_MAXSIZE : ℕ := 4

/-- The enqueue step of _capture_loop (audio_service.py lines 98-102):
put_nowait with the queue.Full exception swallowed, i.e. a full queue
drops the NEW chunk and stays unchanged.  The list is ordered oldest
first; put appends at the tail. -/
def capture_enqueue {α : Type} (q : List α) (chunk : α) : List α :=
  if q.length < QUEUE_MAXSIZE then q ++ [chunk] else q

/-- AudioService._score_confidence (audio_service.py lines 184-195):
0.4 for a grade, 0.2 each for year, set and spoken bid.  Presence of the
spoken bid is passed as a flag (the source tests the dict key's
truthiness). -/
def score_confidence (attrs : AudioAttrs) (spoken_bid : Bool) : ℚ :=
  (if attrs.grade ≠ "" then (2/5 : ℚ) else 0) +
  (if attrs.year ≠ "" then (1/5 : ℚ) else 0) +
  (if attrs.set_name ≠ "" then (1/5 : ℚ) else 0) +
  (if spoken_bid then (1/5 : ℚ) else 0)

end AudioService

/-! Concrete scenario inputs used by the spec's scenarios and by witnesses. -/

/-- The twelve comparable prices of the spec's Mike Trout scenario. -/
def troutPrices : List ℚ := [30,32,35,38,40,42,45,50,55,60,65,70]

/-- The identity of the spec's Mike Trout scenario. -/
def troutCard : CardInfo :=
  { player_name := "Mike Trout", year := "2023", set_name := "Topps", grade := "PSA 10" }

/-! Helper lemmas about the embedded operations. -/

open PricingService CacheService ROICalculator

/-- The grade multiplier table maps "PSA 10" to 2.5. -/
lemma mult_psa10 : get_grade_multiplier "PSA 10" = 5/2 := by
  rw [get_grade_multiplier, grade_multipliers, List.find?_cons_of_pos _ (by decide)]

/-- An empty grade string matches no table key, so the multiplier is 1. -/
lemma mult_empty : get_grade_multiplier "" = 1 := by
  rw [get_grade_multiplier,
    (by decide : grade_multipliers.find? (fun kv => str_contains (str_upper "") (str_upper kv.1)) = none)]

/-- Every grade multiplier the table can produce is positive. -/
lemma get_grade_multiplier_pos (g : String) : 0 < get_grade_multiplier g := by
  rw [get_grade_multiplier]
  cases hf : grade_multipliers.find? (fun kv => str_contains (str_upper g) (str_upper kv.1)) with
  | none => norm_num
  | some kv =>
    have hm : kv ∈ grade_multipliers := List.mem_of_find?_eq_some hf
    fin_cases hm <;> norm_num

/-- The snapshot of a nonempty price list keeps the sorted bottom ten. -/
lemma stats_prices_eq (ps : List ℚ) (q : String) (hne : ps ≠ []) :
    (calculate_price_stats ps q).prices = (sortPrices ps).take 10 := by
  rw [calculate_price_stats, if_neg hne]

/-- The snapshot average of a nonempty price list is the list mean. -/
lemma stats_average_eq (ps : List ℚ) (q : String) (hne : ps ≠ []) :
    (calculate_price_stats ps q).average = ps.sum / (ps.length : ℚ) := by
  rw [calculate_price_stats, if_neg hne]
  have hs : (List.insertionSort (fun x1 x2 : ℚ => x1 ≤ x2) ps).sum = ps.sum :=
    List.Perm.sum_eq (List.perm_insertionSort _ ps)
  simp [sortPrices, List.length_insertionSort, hs]

/-- The snapshot count of a nonempty price list is its length. -/
lemma stats_count_eq (ps : List ℚ) (q : String) (hne : ps ≠ []) :
    (calculate_price_stats ps q).count = ps.length := by
  rw [calculate_price_stats, if_neg hne]
  simp [sortPrices, List.length_insertionSort]

/-- The snapshot of an empty price list is the all-zero "no data" record. -/
lemma stats_nil (q : String) :
    calculate_price_stats [] q =
      { count := 0, prices := [], average := 0, median := 0,
        min_price := 0, max_price := 0, stdDevSq := 0,
        sale_dates := [], sources := ["eBay Sold"],
        timeframe := "Last 90 days", query_used := q } := by
  rw [calculate_price_stats, if_pos rfl]

/-- Evaluation of the snapshot on the Mike Trout scenario prices. -/
lemma troutStats_eval (q : String) :
    calculate_price_stats troutPrices q =
      { count := 12, prices := [30,32,35,38,40,42,45,50,55,60], average := 281/6,
        median := 45, min_price := 30, max_price := 70, stdDevSq := 5735/36,
        sale_dates := [], sources := ["eBay Sold"], timeframe := "Last 90 days",
        query_used := q } := by
  rw [calculate_price_stats, if_neg (by simp [troutPrices])]
  norm_num [troutPrices, sortPrices, List.insertionSort, List.orderedInsert]

/-- Evaluation of the snapshot on a two-comparable price list. -/
lemma stats5060_eval (q : String) :
    calculate_price_stats [50,60] q =
      { count := 2, prices := [50,60], average := 55, median := 60,
        min_price := 50, max_price := 60, stdDevSq := 25,
        sale_dates := [], sources := ["eBay Sold"], timeframe := "Last 90 days",
        query_used := q } := by
  rw [calculate_price_stats, if_neg (by simp)]
  norm_num [sortPrices, List.insertionSort, List.orderedInsert]

/-- Evaluation of the snapshot on two equal comparables. -/
lemma stats6666_eval (q : String) :
    calculate_price_stats [66,66] q =
      { count := 2, prices := [66,66], average := 66, median := 66,
        min_price := 66, max_price := 66, stdDevSq := 0,
        sale_dates := [], sources := ["eBay Sold"], timeframe := "Last 90 days",
        query_used := q } := by
  rw [calculate_price_stats, if_neg (by simp)]
  norm_num [sortPrices, List.insertionSort, List.orderedInsert]

/-- With fewer than three prices in the snapshot list the fair-value base is
the snapshot average. -/
lemma fair_value_estimated_thin (s : PriceStats) (ci : CardInfo)
    (hne : s.prices ≠ []) (hlt : s.prices.length < 3) :
    (calculate_fair_value s ci).estimated = s.average * get_grade_multiplier ci.grade := by
  rw [calculate_fair_value]
  simp only [if_neg hne]
  rw [if_neg (by omega)]

/-- When both gates pass and the estimate is positive, the recommendation is
the one generated from the ROI percentage. -/
lemma roi_path (ci : CardInfo) (bid : ℚ) (s : PriceStats)
    (hne : s.prices ≠ []) (hbid : 0 < bid)
    (hest : 0 < (calculate_fair_value s ci).estimated) :
    (calculate_roi_analysis ci bid s).recommendation =
      (generate_recommendation (((calculate_fair_value s ci).estimated - bid) / bid * 100) s).1 := by
  rw [calculate_roi_analysis, if_neg (not_or.mpr ⟨hne, not_le.mpr hbid⟩), if_pos hest]

/-- The recommendation generator only ever emits the five trading labels. -/
lemma recommendation_labels (r : ℚ) (s : PriceStats) :
    (generate_recommendation r s).1 ∈ (["STRONG_BUY", "BUY", "WEAK_BUY", "WATCH", "PASS"] : List String) := by
  rw [generate_recommendation]
  split_ifs <;> simp

/-- A cache row written at t0 is found, unexpired, by a lookup at t1 ≤ t0 + ttl. -/
lemma cache_get_set (cache : Cache) (ci : CardInfo) (data : PriceStats) (t0 t1 ttl : ℚ)
    (h : ¬ (t1 - t0 > ttl)) :
    cache_get (cache_set cache ci data t0) ci t1 ttl = some data := by
  rw [cache_get, cache_set, List.find?_cons_of_pos _ (by simp)]
  show (if t1 - t0 > ttl then none else some data) = some data
  rw [if_neg h]

/-- On a cache miss the resolver runs the search phase, computes the
statistics and writes them to the cache. -/
lemma get_card_prices_miss (search : String → Option (List ℚ × List String))
    (sim : String → String → ℚ) (threshold : ℚ) (query : String)
    (cache : Cache) (ci : CardInfo) (now ttl : ℚ)
    (h : cache_get cache ci now ttl = none) :
    get_card_prices search sim threshold query cache ci now ttl =
      (calculate_price_stats (search_phase search sim threshold query ci).1
         (search_phase search sim threshold query ci).2.1,
       cache_set cache ci
         (calculate_price_stats (search_phase search sim threshold query ci).1
           (search_phase search sim threshold query ci).2.1) now,
       (search_phase search sim threshold query ci).2.2) := by
  rw [get_card_prices, h]

/-- On a cache hit the resolver returns the cached snapshot, leaves the
cache unchanged and issues no search call. -/
lemma get_card_prices_hit (search : String → Option (List ℚ × List String))
    (sim : String → String → ℚ) (threshold : ℚ) (query : String)
    (cache : Cache) (ci : CardInfo) (now ttl : ℚ) (r : PriceStats)
    (h : cache_get cache ci now ttl = some r) :
    get_card_prices search sim threshold query cache ci now ttl = (r, cache, 0) := by
  rw [get_card_prices, h]

/-- If every search call fails or returns no listings, the search phase
yields an empty price list after issuing at least one search call. -/
lemma search_phase_empty (search : String → Option (List ℚ × List String))
    (sim : String → String → ℚ) (threshold : ℚ) (query : String) (ci : CardInfo)
    (hs : ∀ q2, search q2 = none ∨ search q2 = some ([], [])) :
    (search_phase search sim threshold query ci).1 = [] ∧
    1 ≤ (search_phase search sim threshold query ci).2.2 := by
  rcases hs query with h | h
  · constructor <;> simp [search_phase, h]
  · rcases hs (build_search_query { ci with card_number := "", grade := "" }) with h2 | h2 <;>
      constructor <;> simp [search_phase, h, h2]

/-! Claim theorems. -/

/-- Claim C1, counterexample: with the Mike Trout identity, a bid of 40 and
only two comparables (count = 2, below the configured minimum of 3 the spec
describes), the ROI calculator does not return INSUFFICIENT_DATA: it computes
the recommendation STRONG_BUY. -/
theorem C1_counterexample :
    (calculate_price_stats [50,60] "q").count = 2 ∧
    (calculate_roi_analysis troutCard 40 (calculate_price_stats [50,60] "q")).recommendation = "STRONG_BUY" ∧
    ("STRONG_BUY" : String) ≠ "INSUFFICIENT_DATA" := by
  rw [stats5060_eval]
  refine ⟨rfl, ?_, by decide⟩
  rw [calculate_roi_analysis, if_neg (not_or.mpr ⟨by simp, by norm_num⟩)]
  norm_num [List.cons_ne_nil, troutCard, calculate_fair_value, listMean, mult_psa10,
    generate_recommendation]

/-- Claim C1, amended: for every identity, positive bid, and snapshot built
from a nonempty list of fewer than three positive prices, the ROI calculator
does not refuse with INSUFFICIENT_DATA; it emits one of the five trading
recommendations, computed from the snapshot average (there is no
minimum-comparables gate in the code). -/
theorem C1_amended (ps : List ℚ) (q : String) (ci : CardInfo) (bid : ℚ)
    (hne : ps ≠ []) (hlen : ps.length < 3) (hpos : ∀ p ∈ ps, 0 < p) (hbid : 0 < bid) :
    (calculate_roi_analysis ci bid (calculate_price_stats ps q)).recommendation ∈
      (["STRONG_BUY", "BUY", "WEAK_BUY", "WATCH", "PASS"] : List String) := by
  have hlsort : (sortPrices ps).length = ps.length := List.length_insertionSort _ ps
  have hp : (calculate_price_stats ps q).prices = sortPrices ps := by
    rw [stats_prices_eq ps q hne, List.take_of_length_le (by omega)]
  have hpne : (calculate_price_stats ps q).prices ≠ [] := by
    rw [hp]
    intro hc
    exact hne (List.length_eq_zero.mp (by rw [← hlsort, hc]; rfl))
  have hplen : (calculate_price_stats ps q).prices.length < 3 := by
    rw [hp, hlsort]; exact hlen
  have havg : 0 < (calculate_price_stats ps q).average := by
    rw [stats_average_eq ps q hne]
    have hsum : 0 < ps.sum := List.sum_pos ps hpos hne
    have hl : 0 < (ps.length : ℚ) := by
      have := List.length_pos.mpr hne
      exact_mod_cast this
    exact div_pos hsum hl
  have hest : 0 < (calculate_fair_value (calculate_price_stats ps q) ci).estimated := by
    rw [fair_value_estimated_thin _ _ hpne hplen]
    exact mul_pos havg (get_grade_multiplier_pos ci.grade)
  rw [roi_path ci bid _ hpne hbid hest]
  exact recommendation_labels _ _

/-- Claim C1, witness for the amended theorem at two comparables. -/
theorem C1_witness :
    (calculate_roi_analysis troutCard 40 (calculate_price_stats [50,60] "w")).recommendation ∈
      (["STRONG_BUY", "BUY", "WEAK_BUY", "WATCH", "PASS"] : List String) :=
  C1_amended [50,60] "w" troutCard 40 (by simp) (by norm_num) (by norm_num) (by norm_num)

/-- Claim C2, counterexample: with a zero bid and abundant price data the ROI
calculator returns the default analysis whose recommendation is "UNKNOWN" —
not "INSUFFICIENT_DATA", and the output carries no GRAY signal or reason
string at all. -/
theorem C2_counterexample :
    (calculate_roi_analysis troutCard 0 (calculate_price_stats troutPrices "q")).recommendation = "UNKNOWN" ∧
    ("UNKNOWN" : String) ≠ "INSUFFICIENT_DATA" := by
  refine ⟨?_, by decide⟩
  rw [calculate_roi_analysis, if_pos (Or.inr (by norm_num))]
  rfl

/-- Claim C2, amended: for every identity and snapshot (however abundant),
a bid ≤ 0 makes the ROI calculator return the default analysis, whose
recommendation is "UNKNOWN" with zero ROI and zero confidence; the check is
a single combined gate (empty prices or non-positive bid), not four ordered
gates, and no reason string or GRAY signal exists. -/
theorem C2_amended (ci : CardInfo) (bid : ℚ) (pd : PriceStats) (h : bid ≤ 0) :
    calculate_roi_analysis ci bid pd = defaultAnalysis ∧
    defaultAnalysis.recommendation = "UNKNOWN" := by
  rw [calculate_roi_analysis, if_pos (Or.inr h)]
  exact ⟨rfl, rfl⟩

/-- Claim C2, witness: the amended theorem applied at bid 0 and the Mike
Trout snapshot. -/
theorem C2_witness :
    calculate_roi_analysis troutCard 0 (calculate_price_stats troutPrices "w") = defaultAnalysis ∧
    defaultAnalysis.recommendation = "UNKNOWN" :=
  C2_amended troutCard 0 (calculate_price_stats troutPrices "w") (le_refl 0)

/-- Claim C3, counterexample: a thin sample (count = 2 < 6) with ROI exactly
32 percent yields STRONG_BUY — under the claimed widened thin-sample
threshold of 35 it would have been BUY, so no widening happens. -/
theorem C3_counterexample :
    (calculate_price_stats [66,66] "q").count < 6 ∧
    (calculate_roi_analysis ({} : CardInfo) 50 (calculate_price_stats [66,66] "q")).roi_potential = 32 ∧
    (calculate_roi_analysis ({} : CardInfo) 50 (calculate_price_stats [66,66] "q")).recommendation = "STRONG_BUY" := by
  rw [stats6666_eval]
  refine ⟨by norm_num, ?_, ?_⟩ <;>
  · rw [calculate_roi_analysis, if_neg (not_or.mpr ⟨by simp, by norm_num⟩)]
    norm_num [List.cons_ne_nil, calculate_fair_value, listMean, mult_empty,
      generate_recommendation]

/-- Claim C3, amended: the recommendation label ignores the snapshot entirely
(so it cannot widen for thin samples) and is chosen by the fixed thresholds
30 / 15 / 5 / −10 on the ROI percentage; sample size only scales the
confidence. -/
theorem C3_amended (r : ℚ) (pd thin abundant : PriceStats) :
    (generate_recommendation r thin).1 = (generate_recommendation r abundant).1 ∧
    ((generate_recommendation r pd).1 = "STRONG_BUY" ↔ 30 ≤ r) ∧
    ((generate_recommendation r pd).1 = "BUY" ↔ 15 ≤ r ∧ r < 30) ∧
    ((generate_recommendation r pd).1 = "WEAK_BUY" ↔ 5 ≤ r ∧ r < 15) ∧
    ((generate_recommendation r pd).1 = "WATCH" ↔ -10 ≤ r ∧ r < 5) ∧
    ((generate_recommendation r pd).1 = "PASS" ↔ r < -10) := by
  refine ⟨rfl, ?_, ?_, ?_, ?_, ?_⟩ <;>
  · simp only [generate_recommendation]
    split_ifs with h1 h2 h3 h4 <;>
      simp <;>
      first
        | linarith
        | (constructor <;> linarith)
        | (rintro ⟨h5, h6⟩; linarith)
        | (intro h5; linarith)

/-- Claim C4, counterexample: on the Mike Trout scenario the computed fair
value estimate is 106.75 (not ≈ 119.4) and the ROI is 166.875 percent (not
≈ 198 percent), because the code averages the ten lowest of the sorted
prices rather than the mean of all twelve. -/
theorem C4_counterexample :
    (calculate_roi_analysis troutCard 40 (calculate_price_stats troutPrices "q")).fair_value_range.estimated = 427/4 ∧
    (427 : ℚ)/4 < 119 ∧
    (calculate_roi_analysis troutCard 40 (calculate_price_stats troutPrices "q")).roi_potential = 1335/8 ∧
    (1335 : ℚ)/8 < 190 := by
  refine ⟨?_, by norm_num, ?_, by norm_num⟩ <;>
  · rw [troutStats_eval, calculate_roi_analysis,
      if_neg (not_or.mpr ⟨by simp, by norm_num⟩)]
    norm_num [List.cons_ne_nil, troutCard, calculate_fair_value, listMean, mult_psa10,
      generate_recommendation]

/-- Claim C4, amended: on the Mike Trout scenario (bid 40, the twelve listed
comparables) the snapshot keeps the ten lowest sorted prices; fair value is
their mean 42.7 times the PSA 10 multiplier 2.5, i.e. 106.75; ROI is
166.875 percent; the recommendation is STRONG_BUY and the confidence is
0.9 × min(1, 10/10) = 0.9. -/
theorem C4_amended :
    (calculate_roi_analysis troutCard 40 (calculate_price_stats troutPrices "q")).fair_value_range.multiplier = 5/2 ∧
    (calculate_roi_analysis troutCard 40 (calculate_price_stats troutPrices "q")).fair_value_range.estimated = 427/4 ∧
    (calculate_roi_analysis troutCard 40 (calculate_price_stats troutPrices "q")).roi_potential = 1335/8 ∧
    (calculate_roi_analysis troutCard 40 (calculate_price_stats troutPrices "q")).recommendation = "STRONG_BUY" ∧
    (calculate_roi_analysis troutCard 40 (calculate_price_stats troutPrices "q")).confidence = 9/10 := by
  refine ⟨?_, ?_, ?_, ?_, ?_⟩ <;>
  · rw [troutStats_eval, calculate_roi_analysis,
      if_neg (not_or.mpr ⟨by simp, by norm_num⟩)]
    norm_num [List.cons_ne_nil, troutCard, calculate_fair_value, listMean, mult_psa10,
      generate_recommendation]

/-- Claim C5, counterexample: at audio confidence exactly 0 (which the audio
scorer indeed assigns to rookie-only attributes) but positive text
confidence, the fuser still copies the audio rookie flag into a text
identity that lacked it, so the fused identity differs from the text
identity on a fusible field. -/
theorem C5_counterexample :
    (Websocket.fuse_identities {} { rookie := true } (1/2) 0).rookie = true ∧
    ({} : CardInfo).rookie = false ∧
    AudioService.score_confidence { rookie := true } false = 0 := by
  refine ⟨?_, rfl, by norm_num [AudioService.score_confidence]⟩
  rw [Websocket.fuse_identities, if_neg (by norm_num)]
  norm_num [Websocket.fuse_field_bool]

/-- Claim C5, amended: at audio confidence 0 the fuser never overrides a
field the text identity already has (the audio weight is 0, never above
0.5): name and item number are always kept, grade, year and set are kept
whenever the text has them, a true text rookie flag stays true, and if the
text confidence is also non-positive the fused identity equals the text
identity outright. Fields the text identity lacks can still be filled from
the audio attributes even at zero audio confidence. -/
theorem C5_amended (ocr : CardInfo) (aud : AudioAttrs) (c : ℚ) :
    ((Websocket.fuse_identities ocr aud c 0).player_name = ocr.player_name) ∧
    ((Websocket.fuse_identities ocr aud c 0).card_number = ocr.card_number) ∧
    (ocr.grade ≠ "" → (Websocket.fuse_identities ocr aud c 0).grade = ocr.grade) ∧
    (ocr.year ≠ "" → (Websocket.fuse_identities ocr aud c 0).year = ocr.year) ∧
    (ocr.set_name ≠ "" → (Websocket.fuse_identities ocr aud c 0).set_name = ocr.set_name) ∧
    (ocr.rookie = true → (Websocket.fuse_identities ocr aud c 0).rookie = true) ∧
    (c ≤ 0 → Websocket.fuse_identities ocr aud c 0 = ocr) := by
  by_cases hc : c + 0 ≤ 0
  · rw [Websocket.fuse_identities, if_pos hc]
    exact ⟨rfl, rfl, fun _ => rfl, fun _ => rfl, fun _ => rfl, fun h => h, fun _ => rfl⟩
  · have hwn : ¬ ((0:ℚ) / (c + 0) > 1/2) := by rw [zero_div]; norm_num
    have hstr : ∀ o a : String, o ≠ "" → Websocket.fuse_field_str (0 / (c + 0)) o a = o := by
      intro o a ho
      rw [Websocket.fuse_field_str, if_neg (by simp [ho]), if_neg (fun h => hwn h.2.2)]
    have hbool : ∀ a : Bool, Websocket.fuse_field_bool (0 / (c + 0)) true a = true := by
      intro a
      cases a
      · rw [Websocket.fuse_field_bool, if_neg (by simp), if_neg (by simp)]
      · rw [Websocket.fuse_field_bool, if_neg (by simp), if_neg (fun h => hwn h.2.2)]
    rw [Websocket.fuse_identities, if_neg hc]
    refine ⟨rfl, rfl, fun h => hstr _ _ h, fun h => hstr _ _ h, fun h => hstr _ _ h,
      fun h => ?_, fun h => absurd (by simpa using h) hc⟩
    simp only [h]
    exact hbool _

/-- Claim C5, witness: the amended theorem at the Mike Trout identity, whose
grade the audio channel cannot override at zero confidence. -/
theorem C5_witness :
    (Websocket.fuse_identities troutCard { grade := "PSA 9" } (3/10) 0).grade = "PSA 10" :=
  (C5_amended troutCard { grade := "PSA 9" } (3/10)).2.2.1 (by decide)

/-- Claim C6: the continuity tracker stores and returns a named identity
with the current timestamp; substitutes a stored identity for an unnamed
current one only while its age is strictly below the 30-second TTL; and
never substitutes once the age reaches the TTL. -/
theorem C6_continuity (state : Websocket.ContinuityState) (cur : CardInfo) (now : ℚ) :
    (cur.player_name ≠ "" →
      Websocket.continuity_update state cur now = (cur, some (cur, now))) ∧
    (∀ last ts, cur.player_name = "" → state = some (last, ts) →
      now - ts < Websocket.LAST_KNOWN_CARD_TTL_SECONDS →
      (Websocket.continuity_update state cur now).1 = last) ∧
    (∀ last ts, state = some (last, ts) →
      Websocket.LAST_KNOWN_CARD_TTL_SECONDS ≤ now - ts →
      (Websocket.continuity_update state cur now).1 = cur) := by
  refine ⟨?_, ?_, ?_⟩
  · intro h
    rw [Websocket.continuity_update.eq_def, if_pos h]
  · rintro last ts hname rfl hts
    simp [Websocket.continuity_update, hname, hts]
  · rintro last ts rfl hts
    by_cases hn : cur.player_name ≠ ""
    · rw [Websocket.continuity_update.eq_def, if_pos hn]
    · simp [Websocket.continuity_update, hn, not_lt.mpr hts]

/-- Claim C6, witness: storing a named identity, substituting it at age 10
seconds, and refusing to substitute at age 31 seconds. -/
theorem C6_witness :
    Websocket.continuity_update none troutCard 0 = (troutCard, some (troutCard, 0)) ∧
    (Websocket.continuity_update (some (troutCard, 0)) {} 10).1 = troutCard ∧
    (Websocket.continuity_update (some (troutCard, 0)) {} 31).1 = ({} : CardInfo) :=
  ⟨(C6_continuity none troutCard 0).1 (by decide),
   (C6_continuity (some (troutCard, 0)) {} 10).2.1 troutCard 0 rfl rfl
     (by norm_num [Websocket.LAST_KNOWN_CARD_TTL_SECONDS]),
   (C6_continuity (some (troutCard, 0)) {} 31).2.2 troutCard 0 rfl
     (by norm_num [Websocket.LAST_KNOWN_CARD_TTL_SECONDS])⟩

/-- Claim C7: if the first resolve misses the cache (and therefore searches
and writes its snapshot at t0), a second resolve of the same identity at any
t1 within the cache TTL returns the first snapshot from cache and issues
zero search calls. -/
theorem C7_idempotent (search : String → Option (List ℚ × List String))
    (sim : String → String → ℚ) (threshold : ℚ) (query : String)
    (cache : Cache) (ci : CardInfo) (t0 t1 ttl : ℚ)
    (hmiss : cache_get cache ci t0 ttl = none)
    (hwin : t1 - t0 ≤ ttl) :
    (get_card_prices search sim threshold query
      (get_card_prices search sim threshold query cache ci t0 ttl).2.1 ci t1 ttl).2.2 = 0 ∧
    (get_card_prices search sim threshold query
      (get_card_prices search sim threshold query cache ci t0 ttl).2.1 ci t1 ttl).1 =
      (get_card_prices search sim threshold query cache ci t0 ttl).1 := by
  rw [get_card_prices_miss search sim threshold query cache ci t0 ttl hmiss]
  rw [get_card_prices_hit search sim threshold query _ ci t1 ttl _
    (cache_get_set cache ci _ t0 t1 ttl (not_lt.mpr hwin))]
  exact ⟨rfl, rfl⟩

/-- Claim C7, witness: a failing search collaborator, an empty cache, and a
second resolve one time unit later under a TTL of five. -/
theorem C7_witness :
    (get_card_prices (fun _ => none) (fun _ _ => 0) 0 ""
      ((get_card_prices (fun _ => none) (fun _ _ => 0) 0 "" [] troutCard 0 5).2.1)
      troutCard 1 5).2.2 = 0 ∧
    (get_card_prices (fun _ => none) (fun _ _ => 0) 0 ""
      ((get_card_prices (fun _ => none) (fun _ _ => 0) 0 "" [] troutCard 0 5).2.1)
      troutCard 1 5).1 =
      (get_card_prices (fun _ => none) (fun _ _ => 0) 0 "" [] troutCard 0 5).1 :=
  C7_idempotent (fun _ => none) (fun _ _ => 0) 0 "" [] troutCard 0 1 5 rfl (by norm_num)

/-- Claim C8, counterexample: when the queue already holds four chunks, the
capture step drops the NEW chunk and leaves the queue unchanged — it does
not drop the oldest pending chunk and enqueue the new one. -/
theorem C8_counterexample :
    AudioService.capture_enqueue [1,2,3,4] (5:ℕ) = [1,2,3,4] ∧
    AudioService.capture_enqueue [1,2,3,4] (5:ℕ) ≠ [2,3,4,5] := by decide

/-- Claim C8, amended: the capture step is a total, non-blocking function:
a full queue (≥ 4 chunks) drops the newly captured chunk and stays
unchanged; otherwise the new chunk is appended at the tail. -/
theorem C8_amended {α : Type} (q : List α) (chunk : α) :
    (AudioService.QUEUE_MAXSIZE ≤ q.length → AudioService.capture_enqueue q chunk = q) ∧
    (q.length < AudioService.QUEUE_MAXSIZE → AudioService.capture_enqueue q chunk = q ++ [chunk]) := by
  constructor <;> intro h <;> rw [AudioService.capture_enqueue]
  · rw [if_neg (by omega)]
  · rw [if_pos h]

/-- Claim C8, witness: the amended theorem at a full and at a non-full
queue. -/
theorem C8_witness :
    AudioService.capture_enqueue [10,20,30,40] (50:ℕ) = [10,20,30,40] ∧
    AudioService.capture_enqueue [10] (50:ℕ) = [10, 50] :=
  ⟨(C8_amended [10,20,30,40] 50).1 (by decide), (C8_amended [10] 50).2 (by decide)⟩

/-- Claim C9: a snapshot computed with count 0 has an empty price list and
zero mean, median, min, max and standard deviation (the variance carried as
stdDevSq is 0 exactly when the source's stored square root is 0). -/
theorem C9_no_data (prices : List ℚ) (q : String)
    (h : (calculate_price_stats prices q).count = 0) :
    (calculate_price_stats prices q).prices = [] ∧
    (calculate_price_stats prices q).average = 0 ∧
    (calculate_price_stats prices q).median = 0 ∧
    (calculate_price_stats prices q).min_price = 0 ∧
    (calculate_price_stats prices q).max_price = 0 ∧
    (calculate_price_stats prices q).stdDevSq = 0 := by
  by_cases hp : prices = []
  · subst hp
    simp [calculate_price_stats]
  · exfalso
    rw [stats_count_eq prices q hp] at h
    exact hp (List.length_eq_zero.mp h)

/-- Claim C9, witness: the theorem at the empty price list. -/
theorem C9_witness :
    (calculate_price_stats ([] : List ℚ) "").prices = [] ∧
    (calculate_price_stats ([] : List ℚ) "").average = 0 :=
  ⟨(C9_no_data [] "" rfl).1, (C9_no_data [] "" rfl).2.1⟩

/-- Claim C10: if every search call raises (modelled by none) or returns
zero listings, the resolver still computes the count-0 empty snapshot,
issues at least one search call, and writes the empty snapshot to the
cache, so a second resolve of the same identity within the TTL returns the
same empty snapshot from cache with zero search calls. -/
theorem C10_caches_empty (search : String → Option (List ℚ × List String))
    (sim : String → String → ℚ) (threshold : ℚ) (query : String)
    (cache : Cache) (ci : CardInfo) (t0 t1 ttl : ℚ)
    (hs : ∀ q2, search q2 = none ∨ search q2 = some ([], []))
    (hmiss : cache_get cache ci t0 ttl = none)
    (hwin : t1 - t0 ≤ ttl) :
    (get_card_prices search sim threshold query cache ci t0 ttl).1.count = 0 ∧
    (get_card_prices search sim threshold query cache ci t0 ttl).1.prices = [] ∧
    1 ≤ (get_card_prices search sim threshold query cache ci t0 ttl).2.2 ∧
    (get_card_prices search sim threshold query
      (get_card_prices search sim threshold query cache ci t0 ttl).2.1 ci t1 ttl).1 =
      (get_card_prices search sim threshold query cache ci t0 ttl).1 ∧
    (get_card_prices search sim threshold query
      (get_card_prices search sim threshold query cache ci t0 ttl).2.1 ci t1 ttl).2.2 = 0 := by
  have hphase := search_phase_empty search sim threshold query ci hs
  rw [get_card_prices_miss search sim threshold query cache ci t0 ttl hmiss, hphase.1]
  rw [stats_nil]
  rw [get_card_prices_hit search sim threshold query _ ci t1 ttl _
    (cache_get_set cache ci _ t0 t1 ttl (not_lt.mpr hwin))]
  exact ⟨rfl, rfl, hphase.2, rfl, rfl⟩

/-- Claim C10, witness: a search collaborator that always raises, an empty
cache, and a second resolve one time unit later under a TTL of five. -/
theorem C10_witness :
    (get_card_prices (fun _ => none) (fun _ _ => 0) 0 "w" [] troutCard 0 5).1.count = 0 ∧
    (get_card_prices (fun _ => none) (fun _ _ => 0) 0 "w"
      ((get_card_prices (fun _ => none) (fun _ _ => 0) 0 "w" [] troutCard 0 5).2.1)
      troutCard 1 5).2.2 = 0 :=
  ⟨(C10_caches_empty (fun _ => none) (fun _ _ => 0) 0 "w" [] troutCard 0 1 5
      (fun _ => Or.inl rfl) rfl (by norm_num)).1,
   (C10_caches_empty (fun _ => none) (fun _ _ => 0) 0 "w" [] troutCard 0 1 5
      (fun _ => Or.inl rfl) rfl (by norm_num)).2.2.2.2⟩
